import Mathlib

/-!
# Verification of the daily-data lookup layer (`daily_data_udf.py`)

Shallow embedding of the validated query-execution layer: the
whitelist-gated lookup operations (`get_daily_data`, `get_series`,
`get_daily_matrix`, `get_all_mcap`), the memoizing executor
`_execute_query` (an LRU cache of size 128 in front of the store), and
the call logger `log_udf_call`.

Python dynamic values are modelled by the inductive `PyVal` (booleans
are numeric, as in Python, where `bool` is a subclass of `int`; floats
are modelled as rationals, which is faithful for the truncation `int()`
performs on finite floats).  The SQLite store is a parameter: a function
from (SQL text, bound parameters) to either an error message or a list
of rows.  Each operation returns its value together with the log entries
it wrote, the updated cache, and the list of store round trips it made.
-/

set_option linter.unusedVariables false

namespace DailyDataUdf

/-- A dynamically typed Python value as passed to/returned from the UDFs. -/
inductive PyVal where
  | intV : Int → PyVal
  | floatV : ℚ → PyVal
  | boolV : Bool → PyVal
  | strV : String → PyVal
  | noneV : PyVal
deriving DecidableEq, Repr

/-- `isinstance(x, (int, float))` — note Python `bool` is a subclass of `int`. -/
def isNum : PyVal → Bool
  | .intV _ => true
  | .floatV _ => true
  | .boolV _ => true
  | _ => false

/-- `isinstance(x, str)`. -/
def isStr : PyVal → Bool
  | .strV _ => true
  | _ => false

/-- The underlying string of a value known to be a `str` (guarded by `isStr`). -/
def pyStr : PyVal → String
  | .strV s => s
  | _ => ""

/-- Python `int(x)` on a numeric value: truncation toward zero for floats
(`Int.tdiv` is truncating division; `pyToInt_floatV` below restates it as
floor for nonnegative and ceiling for negative arguments), identity on
ints, 1/0 on bools.  Only applied after an `isNum` guard. -/
def pyToInt : PyVal → Int
  | .intV n => n
  | .floatV q => q.num.tdiv q.den
  | .boolV b => if b then 1 else 0
  | _ => 0

/-- A row returned by the store: an ordered list of column values. -/
abbrev Row := List PyVal

/-- An immutable result set: ordered list of rows. -/
abbrev Rows := List Row

/-- The cache key of `_execute_query`: (SQL text, bound parameter tuple). -/
abbrev QueryKey := String × List PyVal

/-- The LRU cache of `functools.lru_cache`: entries with most recently
used at the head. -/
abbrev Cache := List (QueryKey × Rows)

/-- `maxsize=128` of the `functools.lru_cache` decorator on `_execute_query`. -/
def CACHE_MAXSIZE : Nat := 128

/-- The backing store: given SQL text and bound parameters, either an
sqlite error message or the fetched rows. -/
abbrev Store := String → List PyVal → Except String Rows

/-- Find the value cached for a key, if any. -/
def cacheFind : Cache → QueryKey → Option Rows
  | [], _ => none
  | e :: rest, k => if e.1 = k then some e.2 else cacheFind rest k

/-- Remove the entry for a key (keys are unique in the cache). -/
def cacheRemove : Cache → QueryKey → Cache
  | [], _ => []
  | e :: rest, k => if e.1 = k then rest else e :: cacheRemove rest k

/-- On a hit, `lru_cache` moves the entry to most-recently-used position. -/
def cacheRefresh (c : Cache) (k : QueryKey) (v : Rows) : Cache :=
  (k, v) :: cacheRemove c k

/-- On a miss that computes successfully, `lru_cache` inserts the new entry
as most recently used and evicts the least recently used beyond `maxsize`. -/
def cacheInsert (c : Cache) (k : QueryKey) (v : Rows) : Cache :=
  ((k, v) :: c).take CACHE_MAXSIZE

/-- Result of one call to the cached executor: the outcome (rows, or the
`RuntimeError` message), the cache afterwards, and the store round trips
performed (`[]` or `[key]`). -/
structure ExecOut where
  res : Except String Rows
  cache : Cache
  calls : List QueryKey
deriving Repr

/-- `_execute_query(sql, params)` under `@functools.lru_cache(maxsize=128)`:
on a hit, return the memoized rows and refresh recency with no store round
trip; on a miss, reach the store; a successful fetch is materialized as an
immutable result and cached, while an `sqlite3.Error` is re-raised as
`RuntimeError("Database error: ...")` and nothing is cached. -/
def execQuery (store : Store) (c : Cache) (sql : String) (params : List PyVal) :
    ExecOut :=
  match cacheFind c (sql, params) with
  | some rows => ⟨.ok rows, cacheRefresh c (sql, params) rows, []⟩
  | none =>
    match store sql params with
    | .ok rows => ⟨.ok rows, cacheInsert c (sql, params) rows, [(sql, params)]⟩
    | .error e => ⟨.error ("Database error: " ++ e), c, [(sql, params)]⟩

/-- One line written to the rotating query log. -/
structure LogEntry where
  func : String
  params : List PyVal
  status : String
  errorMsg : String
deriving DecidableEq, Repr

/-- `log_udf_call`: records the call and returns the value the UDF hands to
the host — the `"#QUERY_ERROR"` tag when an error message is present
(truthy), `True` otherwise. -/
def log_udf_call (func_name : String) (params : List PyVal) (status : String)
    (error_msg : String) : PyVal × LogEntry :=
  (if error_msg = "" then .boolV true else .strV "#QUERY_ERROR",
   ⟨func_name, params, status, error_msg⟩)

/-- Result of a scalar UDF call (`get_daily_data`): the value handed to the
host, the log entries written, the cache afterwards, and the store round
trips performed. -/
structure ScalarOut where
  value : PyVal
  logs : List LogEntry
  cache : Cache
  calls : List QueryKey
deriving Repr

/-- Result of a grid UDF call (`get_series`, `get_daily_matrix`,
`get_all_mcap`). -/
structure GridOut where
  grid : List (List PyVal)
  logs : List LogEntry
  cache : Cache
  calls : List QueryKey
deriving Repr

/-- The f-string SQL of `get_daily_data`. -/
def sql_daily_data (field table : String) : String :=
  "SELECT " ++ field ++ " FROM " ++ table ++ " WHERE accord_code = ? AND date = ?"

/-- The triple-quoted f-string SQL of `get_series` (whitespace included). -/
def sql_series (field table : String) : String :=
  "\n        SELECT date, " ++ field ++ "\n        FROM " ++ table ++
  "\n        WHERE accord_code = ? AND date BETWEEN ? AND ?\n        ORDER BY date\n    "

/-- The triple-quoted f-string SQL of `get_daily_matrix`. -/
def sql_daily_matrix (field table : String) : String :=
  "\n        SELECT accord_code, company_name, sector, mcap_category, " ++ field ++
  "\n        FROM " ++ table ++ "\n        WHERE date = ?\n    "

/-- The triple-quoted f-string SQL of `get_all_mcap`. -/
def sql_all_mcap (field table : String) : String :=
  "\n        SELECT date, " ++ field ++ "\n        FROM " ++ table ++
  "\n        WHERE accord_code = ?\n        ORDER BY date\n    "

/-- `get_daily_data(accord_code, field, date)`: point lookup returning the
first column of the first matching row.  `VALID_FIELDS` and the configured
table name are parameters of the embedding (module globals in the source). -/
def get_daily_data (store : Store) (VALID_FIELDS : List String) (table : String)
    (accord_code field date : PyVal) (c : Cache) : ScalarOut :=
  let params := [accord_code, field, date]
  if !(isNum accord_code && isStr field && isStr date) then
    let r := log_udf_call "get_daily_data" params "FAILURE" "Invalid input type."
    ⟨r.1, [r.2], c, []⟩
  else if pyStr field ∉ VALID_FIELDS then
    let r := log_udf_call "get_daily_data" params "FAILURE"
      ("Invalid field: " ++ pyStr field)
    ⟨r.1, [r.2], c, []⟩
  else
    let sql := sql_daily_data (pyStr field) table
    let qp : List PyVal := [.intV (pyToInt accord_code), date]
    let out := execQuery store c sql qp
    match out.res with
    | .error e =>
      let r := log_udf_call "get_daily_data" params "FAILURE" e
      ⟨r.1, [r.2], out.cache, out.calls⟩
    | .ok [] =>
      let r := log_udf_call "get_daily_data" params "FAILURE" "Data not found."
      ⟨r.1, [r.2], out.cache, out.calls⟩
    | .ok ([] :: _) =>
      -- results[0][0] raises IndexError on an empty first row; the generic
      -- `except Exception` handler converts it like any other fault
      let r := log_udf_call "get_daily_data" params "FAILURE"
        "Unexpected error: tuple index out of range"
      ⟨r.1, [r.2], out.cache, out.calls⟩
    | .ok ((v0 :: _) :: _) =>
      let r := log_udf_call "get_daily_data" params "SUCCESS" ""
      ⟨v0, [r.2], out.cache, out.calls⟩

/-- `get_series(accord_code, field, start_date, end_date)`: per-entity time
series between two dates, date ascending. -/
def get_series (store : Store) (VALID_FIELDS : List String) (table : String)
    (accord_code field start_date end_date : PyVal) (c : Cache) : GridOut :=
  let params := [accord_code, field, start_date, end_date]
  if !(isNum accord_code && isStr field) then
    ⟨[[.strV "#INPUT_ERROR"]], [], c, []⟩
  else if pyStr field ∉ VALID_FIELDS then
    ⟨[[.strV "#INVALID_FIELD"]], [], c, []⟩
  else
    let sql := sql_series (pyStr field) table
    let qp : List PyVal := [.intV (pyToInt accord_code), start_date, end_date]
    let out := execQuery store c sql qp
    match out.res with
    | .error e =>
      let r := log_udf_call "get_series" params "FAILURE" e
      ⟨[[r.1]], [r.2], out.cache, out.calls⟩
    | .ok [] =>
      let r := log_udf_call "get_series" params "FAILURE" "Data not found."
      ⟨[[.strV "#N/A_DATA", .strV ""]], [r.2], out.cache, out.calls⟩
    | .ok (row0 :: rest) =>
      let r := log_udf_call "get_series" params "SUCCESS" ""
      ⟨[.strV "Date", field] :: row0 :: rest, [r.2], out.cache, out.calls⟩

/-- `get_daily_matrix(date, field)`: all entities' values of a field on one
date, with the fixed projection columns. -/
def get_daily_matrix (store : Store) (VALID_FIELDS : List String) (table : String)
    (date field : PyVal) (c : Cache) : GridOut :=
  let params := [date, field]
  if !(isStr date && isStr field) then
    ⟨[[.strV "#INPUT_ERROR"]], [], c, []⟩
  else if pyStr field ∉ VALID_FIELDS then
    ⟨[[.strV "#INVALID_FIELD"]], [], c, []⟩
  else
    let sql := sql_daily_matrix (pyStr field) table
    let qp : List PyVal := [date]
    let out := execQuery store c sql qp
    match out.res with
    | .error e =>
      let r := log_udf_call "get_daily_matrix" params "FAILURE" e
      ⟨[[r.1]], [r.2], out.cache, out.calls⟩
    | .ok [] =>
      let r := log_udf_call "get_daily_matrix" params "FAILURE" "Data not found."
      ⟨[[.strV "#N/A_DATA", .strV "", .strV "", .strV "", .strV ""]],
       [r.2], out.cache, out.calls⟩
    | .ok (row0 :: rest) =>
      let r := log_udf_call "get_daily_matrix" params "SUCCESS" ""
      ⟨[.strV "accord_code", .strV "company_name", .strV "sector",
        .strV "mcap_category", field] :: row0 :: rest,
       [r.2], out.cache, out.calls⟩

/-- `get_all_mcap(accord_code, field)`: full history of a field for one
entity, date ascending. -/
def get_all_mcap (store : Store) (VALID_FIELDS : List String) (table : String)
    (accord_code field : PyVal) (c : Cache) : GridOut :=
  let params := [accord_code, field]
  if !(isNum accord_code && isStr field) then
    ⟨[[.strV "#INPUT_ERROR"]], [], c, []⟩
  else if pyStr field ∉ VALID_FIELDS then
    ⟨[[.strV "#INVALID_FIELD"]], [], c, []⟩
  else
    let sql := sql_all_mcap (pyStr field) table
    let qp : List PyVal := [.intV (pyToInt accord_code)]
    let out := execQuery store c sql qp
    match out.res with
    | .error e =>
      let r := log_udf_call "get_all_mcap" params "FAILURE" e
      ⟨[[r.1]], [r.2], out.cache, out.calls⟩
    | .ok [] =>
      let r := log_udf_call "get_all_mcap" params "FAILURE" "Data not found."
      ⟨[[.strV "#N/A_DATA", .strV ""]], [r.2], out.cache, out.calls⟩
    | .ok (row0 :: rest) =>
      let r := log_udf_call "get_all_mcap" params "SUCCESS" ""
      ⟨[.strV "Date", field] :: row0 :: rest, [r.2], out.cache, out.calls⟩

/-- The four caller-visible sentinel tokens. -/
def SENTINELS : List String :=
  ["#QUERY_ERROR", "#INPUT_ERROR", "#INVALID_FIELD", "#N/A_DATA"]

/-- Is this cell one of the sentinel tokens? -/
def isSentinel : PyVal → Bool
  | .strV s => decide (s ∈ SENTINELS)
  | _ => false

/-- Number of sentinel-token cells in a returned grid. -/
def sentinelCount (g : List (List PyVal)) : Nat :=
  (g.map fun row => row.countP fun v => isSentinel v).sum

/-- A store answering every query with the same fixed rows. -/
def constStore (rows : Rows) : Store := fun _ _ => .ok rows

/-- A store answering every query with zero rows. -/
def emptyStore : Store := constStore []

/-- A store failing every query with the same sqlite error message. -/
def failStore (msg : String) : Store := fun _ _ => .error msg

/-! ## Helper lemmas about the cached executor -/

/-- `int()` on a float is truncation toward zero: floor of a nonnegative
value, ceiling of a negative one. -/
theorem pyToInt_floatV (q : ℚ) :
    pyToInt (.floatV q) = if 0 ≤ q then ⌊q⌋ else ⌈q⌉ := by
  by_cases h : 0 ≤ q
  · rw [if_pos h]
    show q.num.tdiv q.den = ⌊q⌋
    rw [Rat.floor_def]
    exact Int.tdiv_eq_ediv (Rat.num_nonneg.mpr h) (Int.natCast_nonneg _)
  · rw [if_neg h]
    show q.num.tdiv q.den = ⌈q⌉
    have h1 : (0 : ℚ) ≤ -q := by linarith
    calc q.num.tdiv q.den = -((-q).num.tdiv (-q).den) := by
          rw [Rat.neg_num, Rat.neg_den, Int.neg_tdiv, neg_neg]
      _ = -⌊-q⌋ := by
          rw [Int.tdiv_eq_ediv (Rat.num_nonneg.mpr h1) (Int.natCast_nonneg _),
            ← Rat.floor_def]
      _ = ⌈q⌉ := by
          rw [Int.floor_neg, neg_neg]

theorem cacheFind_cons_self (e : QueryKey × Rows) (c : Cache) :
    cacheFind (e :: c) e.1 = some e.2 := by
  simp [cacheFind]

theorem cacheInsert_cons (c : Cache) (k : QueryKey) (v : Rows) :
    cacheInsert c k v = (k, v) :: c.take 127 := by
  have h : CACHE_MAXSIZE = 127 + 1 := rfl
  simp [cacheInsert, h, List.take_succ_cons]

theorem execQuery_hit (store : Store) (c : Cache) (sql : String) (ps : List PyVal)
    (rows : Rows) (h : cacheFind c (sql, ps) = some rows) :
    execQuery store c sql ps = ⟨.ok rows, cacheRefresh c (sql, ps) rows, []⟩ := by
  simp [execQuery, h]

theorem execQuery_miss_ok (store : Store) (c : Cache) (sql : String) (ps : List PyVal)
    (rows : Rows) (hm : cacheFind c (sql, ps) = none) (hs : store sql ps = .ok rows) :
    execQuery store c sql ps = ⟨.ok rows, cacheInsert c (sql, ps) rows, [(sql, ps)]⟩ := by
  simp [execQuery, hm, hs]

theorem execQuery_miss_error (store : Store) (c : Cache) (sql : String) (ps : List PyVal)
    (e : String) (hm : cacheFind c (sql, ps) = none) (hs : store sql ps = .error e) :
    execQuery store c sql ps = ⟨.error ("Database error: " ++ e), c, [(sql, ps)]⟩ := by
  simp [execQuery, hm, hs]

/-- After any call whose outcome is `ok rows`, the key is cached with
exactly those rows. -/
theorem execQuery_ok_cached (store : Store) (c : Cache) (sql : String)
    (ps : List PyVal) (rows : Rows) (h : (execQuery store c sql ps).res = .ok rows) :
    cacheFind (execQuery store c sql ps).cache (sql, ps) = some rows := by
  cases hf : cacheFind c (sql, ps) with
  | some r =>
    rw [execQuery_hit store c sql ps r hf] at h ⊢
    simp only [Except.ok.injEq] at h
    subst h
    simpa [cacheRefresh] using cacheFind_cons_self ((sql, ps), r) (cacheRemove c (sql, ps))
  | none =>
    cases hs : store sql ps with
    | ok r =>
      rw [execQuery_miss_ok store c sql ps r hf hs] at h ⊢
      simp only [Except.ok.injEq] at h
      subst h
      simpa [cacheInsert_cons] using cacheFind_cons_self ((sql, ps), r) (c.take 127)
    | error e =>
      rw [execQuery_miss_error store c sql ps e hf hs] at h
      simp at h

/-- A call on a cache holding the key is answered from the cache, with the
memoized rows and zero store round trips, whatever the store would say. -/
theorem execQuery_of_cached (store : Store) (c : Cache) (sql : String)
    (ps : List PyVal) (rows : Rows) (h : cacheFind c (sql, ps) = some rows) :
    (execQuery store c sql ps).res = .ok rows ∧ (execQuery store c sql ps).calls = [] := by
  rw [execQuery_hit store c sql ps rows h]
  exact ⟨rfl, rfl⟩

/-! ## Claim theorems -/

/-- C2: two calls to the cached executor with an identical (SQL text,
parameter tuple) key return the identical `ResultSet`, and while the entry
is resident the second call performs zero store round trips — it does not
even consult the store (`store2` is arbitrary). -/
theorem C2_cache_memoization (store store2 : Store) (c : Cache) (sql : String)
    (ps : List PyVal) (rows : Rows)
    (h : (execQuery store c sql ps).res = .ok rows) :
    (execQuery store2 (execQuery store c sql ps).cache sql ps).res = .ok rows ∧
    (execQuery store2 (execQuery store c sql ps).cache sql ps).calls = [] :=
  execQuery_of_cached store2 (execQuery store c sql ps).cache sql ps rows
    (execQuery_ok_cached store c sql ps rows h)

/-- Witness for C2 at a concrete key and store. -/
theorem C2_cache_memoization_witness :
    (execQuery (constStore [[PyVal.intV 7]]) [] "q" []).res = .ok [[PyVal.intV 7]] ∧
    ((execQuery emptyStore (execQuery (constStore [[PyVal.intV 7]]) [] "q" []).cache
        "q" []).res = .ok [[PyVal.intV 7]] ∧
     (execQuery emptyStore (execQuery (constStore [[PyVal.intV 7]]) [] "q" []).cache
        "q" []).calls = []) :=
  ⟨rfl, C2_cache_memoization (constStore [[PyVal.intV 7]]) emptyStore [] "q" []
    [[PyVal.intV 7]] rfl⟩

/-- C4 counterexample: an empty (zero-row) result IS cached by
`functools.lru_cache`, and the second call with the same key is served from
the cache with zero store round trips — it does not recompute from the
store, contrary to the claim. -/
theorem C4_counterexample :
    (execQuery emptyStore [] "q" [PyVal.intV 1]).res = .ok [] ∧
    (execQuery emptyStore [] "q" [PyVal.intV 1]).calls = [("q", [PyVal.intV 1])] ∧
    cacheFind (execQuery emptyStore [] "q" [PyVal.intV 1]).cache ("q", [PyVal.intV 1])
      = some [] ∧
    (execQuery emptyStore (execQuery emptyStore [] "q" [PyVal.intV 1]).cache
      "q" [PyVal.intV 1]).res = .ok [] ∧
    (execQuery emptyStore (execQuery emptyStore [] "q" [PyVal.intV 1]).cache
      "q" [PyVal.intV 1]).calls = [] :=
  ⟨rfl, rfl, rfl, rfl, rfl⟩

/-- C4 (amended): a successfully executed query returning zero rows is
cached like any other successful result; a subsequent call with the same
key serves the empty result from the cache with zero store round trips. -/
theorem C4_empty_result_cached (store store2 : Store) (c : Cache) (sql : String)
    (ps : List PyVal) (h : (execQuery store c sql ps).res = .ok []) :
    cacheFind (execQuery store c sql ps).cache (sql, ps) = some [] ∧
    (execQuery store2 (execQuery store c sql ps).cache sql ps).res = .ok [] ∧
    (execQuery store2 (execQuery store c sql ps).cache sql ps).calls = [] := by
  have hc := execQuery_ok_cached store c sql ps [] h
  have h2 := execQuery_of_cached store2 (execQuery store c sql ps).cache sql ps [] hc
  exact ⟨hc, h2.1, h2.2⟩

/-- Witness for the amended C4 at a concrete key. -/
theorem C4_empty_result_cached_witness :
    (execQuery emptyStore [] "w" []).res = .ok [] ∧
    (cacheFind (execQuery emptyStore [] "w" []).cache ("w", []) = some [] ∧
     (execQuery emptyStore (execQuery emptyStore [] "w" []).cache "w" []).res = .ok [] ∧
     (execQuery emptyStore (execQuery emptyStore [] "w" []).cache "w" []).calls = []) :=
  ⟨rfl, C4_empty_result_cached emptyStore emptyStore [] "w" [] rfl⟩

/-- C6: a call failing with a store-level error raises
`RuntimeError("Database error: ...")`, leaves the cache unchanged, and is
not cached: an immediately following call with the same key reaches the
store again and gets the (now resolved) store's answer. -/
theorem C6_store_error_not_cached (store store2 : Store) (c : Cache) (sql : String)
    (ps : List PyVal) (e : String) (rows : Rows)
    (hm : cacheFind c (sql, ps) = none)
    (herr : store sql ps = .error e)
    (hok : store2 sql ps = .ok rows) :
    (execQuery store c sql ps).res = .error ("Database error: " ++ e) ∧
    (execQuery store c sql ps).cache = c ∧
    execQuery store2 (execQuery store c sql ps).cache sql ps =
      ⟨.ok rows, cacheInsert c (sql, ps) rows, [(sql, ps)]⟩ := by
  rw [execQuery_miss_error store c sql ps e hm herr]
  exact ⟨rfl, rfl, execQuery_miss_ok store2 c sql ps rows hm hok⟩

/-- Witness for C6: a transient fault at a concrete key, retried against a
recovered store. -/
theorem C6_store_error_not_cached_witness :
    (cacheFind ([] : Cache) ("r", []) = none ∧
     failStore "locked" "r" [] = .error "locked" ∧
     constStore [[PyVal.intV 3]] "r" [] = .ok [[PyVal.intV 3]]) ∧
    ((execQuery (failStore "locked") [] "r" []).res
        = .error ("Database error: " ++ "locked") ∧
     (execQuery (failStore "locked") [] "r" []).cache = [] ∧
     execQuery (constStore [[PyVal.intV 3]])
         (execQuery (failStore "locked") [] "r" []).cache "r" [] =
       ⟨.ok [[PyVal.intV 3]], cacheInsert [] ("r", []) [[PyVal.intV 3]], [("r", [])]⟩) :=
  ⟨⟨rfl, rfl, rfl⟩,
   C6_store_error_not_cached (failStore "locked") (constStore [[PyVal.intV 3]])
     [] "r" [] "locked" [[PyVal.intV 3]] rfl rfl rfl⟩

/-- Keys absent from the cache are not found. -/
theorem cacheFind_of_not_mem (c : Cache) (k : QueryKey) (h : k ∉ c.map Prod.fst) :
    cacheFind c k = none := by
  induction c with
  | nil => rfl
  | cons e rest ih =>
    simp only [List.map_cons, List.mem_cons] at h
    push_neg at h
    simp only [cacheFind]
    rw [if_neg (Ne.symm h.1)]
    exact ih h.2

/-- A full 128-entry cache used to exercise the eviction bound. -/
def bigCache : Cache :=
  (List.range CACHE_MAXSIZE).map fun i => (("q", [PyVal.intV (Int.ofNat i)]), [])

/-- C7: the query cache is bounded at 128 entries with least-recently-used
eviction: an insert never grows the cache beyond 128; inserting a fresh key
into a full cache evicts the least-recently-used entry (the oldest, at the
tail), whose subsequent lookup misses; a hit moves the entry to
most-recently-used position in the executor, and a refreshed entry survives
the next eviction. -/
theorem C7_lru_bounded_cache :
    CACHE_MAXSIZE = 128 ∧
    (∀ (c : Cache) (k : QueryKey) (v : Rows),
      (cacheInsert c k v).length ≤ CACHE_MAXSIZE) ∧
    (∀ (c : Cache) (k : QueryKey) (v : Rows) (hne : c ≠ []),
      c.length = CACHE_MAXSIZE → (c.map Prod.fst).Nodup → k ∉ c.map Prod.fst →
      cacheFind (cacheInsert c k v) (c.getLast hne).1 = none) ∧
    (∀ (store : Store) (c : Cache) (sql : String) (ps : List PyVal) (rows : Rows),
      cacheFind c (sql, ps) = some rows →
      (execQuery store c sql ps).cache = ((sql, ps), rows) :: cacheRemove c (sql, ps)) ∧
    (∀ (c : Cache) (k k2 : QueryKey) (v v2 : Rows),
      cacheFind c k = some v → k2 ≠ k →
      cacheFind (cacheInsert (cacheRefresh c k v) k2 v2) k = some v) := by
  refine ⟨rfl, ?_, ?_, ?_, ?_⟩
  · intro c k v
    simp [cacheInsert]
  · intro c k v hne hlen hnd hk
    rw [cacheInsert_cons]
    have htake : c.take 127 = c.dropLast := by
      rw [List.dropLast_eq_take, hlen]
      rfl
    have hq : (c.getLast hne).1 ∈ c.map Prod.fst :=
      List.mem_map_of_mem Prod.fst (List.getLast_mem hne)
    have hqk : ¬ k = (c.getLast hne).1 := fun h => hk (h ▸ hq)
    have hsplit : c.map Prod.fst
        = (c.dropLast.map Prod.fst) ++ [(c.getLast hne).1] := by
      conv_lhs => rw [← List.dropLast_append_getLast hne]
      simp
    rw [hsplit] at hnd
    have hnot : (c.getLast hne).1 ∉ c.dropLast.map Prod.fst := by
      intro hmem
      exact (List.disjoint_of_nodup_append hnd) hmem (List.mem_singleton_self _)
    simp only [cacheFind]
    rw [if_neg hqk, htake]
    exact cacheFind_of_not_mem _ _ hnot
  · intro store c sql ps rows h
    rw [execQuery_hit store c sql ps rows h]
    rfl
  · intro c k k2 v v2 hfind hne
    rw [cacheRefresh, cacheInsert_cons]
    have h127 : (127 : Nat) = 126 + 1 := rfl
    rw [h127, List.take_succ_cons]
    simp only [cacheFind]
    rw [if_neg hne]
    simp

/-- Witness for C7: a concrete full cache of 128 distinct keys; inserting a
129th key evicts the oldest key, which then misses. -/
theorem C7_lru_bounded_cache_witness :
    (bigCache.length = CACHE_MAXSIZE ∧ (bigCache.map Prod.fst).Nodup ∧
     ("q", [PyVal.intV 128]) ∉ bigCache.map Prod.fst) ∧
    cacheFind (cacheInsert bigCache ("q", [PyVal.intV 128]) [])
      ("q", [PyVal.intV 127]) = none := by
  have hlen : bigCache.length = CACHE_MAXSIZE := by
    rw [bigCache, List.length_map, List.length_range]
  have hne : bigCache ≠ [] := by
    intro h
    rw [h] at hlen
    simp [CACHE_MAXSIZE] at hlen
  have hmapfst : bigCache.map Prod.fst
      = (List.range CACHE_MAXSIZE).map
          fun i => (("q", [PyVal.intV (Int.ofNat i)]) : QueryKey) := by
    rw [bigCache, List.map_map]
    rfl
  have hinj : Function.Injective
      fun i : ℕ => (("q", [PyVal.intV (Int.ofNat i)]) : QueryKey) := by
    intro a b h
    simpa using h
  have hnd : (bigCache.map Prod.fst).Nodup := by
    rw [hmapfst]
    exact (List.nodup_range _).map hinj
  have hk : ("q", [PyVal.intV 128]) ∉ bigCache.map Prod.fst := by
    rw [hmapfst]
    intro hmem
    rcases List.mem_map.mp hmem with ⟨i, hi, heq⟩
    have hii : Int.ofNat i = 128 := by
      have := heq
      simp at this
      exact this
    have hlt : i < CACHE_MAXSIZE := List.mem_range.mp hi
    rw [CACHE_MAXSIZE] at hlt
    have hieq : i = 128 := Int.ofNat.inj hii
    omega
  have hlast : (bigCache.getLast hne).1 = ("q", [PyVal.intV 127]) := by
    have hgl : bigCache.getLast hne = (("q", [PyVal.intV (Int.ofNat 127)]), []) := by
      rw [List.getLast_eq_getElem]
      simp [bigCache, CACHE_MAXSIZE]
    rw [hgl]
    rfl
  have h := C7_lru_bounded_cache.2.2.1 bigCache ("q", [PyVal.intV 128]) [] hne hlen hnd hk
  rw [hlast] at h
  exact ⟨⟨hlen, hnd, hk⟩, h⟩

/-! ## Helper lemmas about the lookup operations -/

theorem str_append_ne_empty (a b : String) (ha : a.length ≠ 0) : (a ++ b) ≠ "" := by
  intro h
  have hlen := congrArg String.length h
  rw [String.length_append] at hlen
  have h0 : ("" : String).length = 0 := rfl
  rw [h0] at hlen
  omega

/-- Every store round trip of the executor carries exactly the key it was
called with. -/
theorem execQuery_calls_eq (store : Store) (c : Cache) (sql : String)
    (ps : List PyVal) (k : QueryKey) (hk : k ∈ (execQuery store c sql ps).calls) :
    k = (sql, ps) := by
  cases hf : cacheFind c (sql, ps) with
  | some r =>
    rw [execQuery_hit store c sql ps r hf] at hk
    simp at hk
  | none =>
    cases hs : store sql ps with
    | ok r =>
      rw [execQuery_miss_ok store c sql ps r hf hs] at hk
      simpa using hk
    | error e =>
      rw [execQuery_miss_error store c sql ps e hf hs] at hk
      simpa using hk

/-- The store round trips of `get_daily_data` are none at all (a validation
rejection or a cache hit) or exactly those of the one executor call on the
whitelist-gated SQL. -/
theorem get_daily_data_calls (store : Store) (V : List String) (table : String)
    (a f d : PyVal) (c : Cache) :
    (get_daily_data store V table a f d c).calls = [] ∨
    (pyStr f ∈ V ∧ (get_daily_data store V table a f d c).calls
      = (execQuery store c (sql_daily_data (pyStr f) table)
          [.intV (pyToInt a), d]).calls) := by
  by_cases h1 : (isNum a && isStr f && isStr d) = true
  · by_cases h2 : pyStr f ∈ V
    · right
      refine ⟨h2, ?_⟩
      have h2' : ¬ pyStr f ∉ V := by simpa using h2
      simp only [get_daily_data, h1, Bool.not_true, Bool.false_eq_true, if_false,
        if_neg h2']
      split <;> rfl
    · left
      simp [get_daily_data, h1, h2]
  · left
    have h1' : (isNum a && isStr f && isStr d) = false := by
      simpa using h1
    simp [get_daily_data, h1']

/-- Same for `get_series`. -/
theorem get_series_calls (store : Store) (V : List String) (table : String)
    (a f d1 d2 : PyVal) (c : Cache) :
    (get_series store V table a f d1 d2 c).calls = [] ∨
    (pyStr f ∈ V ∧ (get_series store V table a f d1 d2 c).calls
      = (execQuery store c (sql_series (pyStr f) table)
          [.intV (pyToInt a), d1, d2]).calls) := by
  by_cases h1 : (isNum a && isStr f) = true
  · by_cases h2 : pyStr f ∈ V
    · right
      refine ⟨h2, ?_⟩
      have h2' : ¬ pyStr f ∉ V := by simpa using h2
      simp only [get_series, h1, Bool.not_true, Bool.false_eq_true, if_false,
        if_neg h2']
      split <;> rfl
    · left
      simp [get_series, h1, h2]
  · left
    have h1' : (isNum a && isStr f) = false := by simpa using h1
    simp [get_series, h1']

/-- Same for `get_daily_matrix`. -/
theorem get_daily_matrix_calls (store : Store) (V : List String) (table : String)
    (d f : PyVal) (c : Cache) :
    (get_daily_matrix store V table d f c).calls = [] ∨
    (pyStr f ∈ V ∧ (get_daily_matrix store V table d f c).calls
      = (execQuery store c (sql_daily_matrix (pyStr f) table) [d]).calls) := by
  by_cases h1 : (isStr d && isStr f) = true
  · by_cases h2 : pyStr f ∈ V
    · right
      refine ⟨h2, ?_⟩
      have h2' : ¬ pyStr f ∉ V := by simpa using h2
      simp only [get_daily_matrix, h1, Bool.not_true, Bool.false_eq_true, if_false,
        if_neg h2']
      split <;> rfl
    · left
      simp [get_daily_matrix, h1, h2]
  · left
    have h1' : (isStr d && isStr f) = false := by simpa using h1
    simp [get_daily_matrix, h1']

/-- Same for `get_all_mcap`. -/
theorem get_all_mcap_calls (store : Store) (V : List String) (table : String)
    (a f : PyVal) (c : Cache) :
    (get_all_mcap store V table a f c).calls = [] ∨
    (pyStr f ∈ V ∧ (get_all_mcap store V table a f c).calls
      = (execQuery store c (sql_all_mcap (pyStr f) table)
          [.intV (pyToInt a)]).calls) := by
  by_cases h1 : (isNum a && isStr f) = true
  · by_cases h2 : pyStr f ∈ V
    · right
      refine ⟨h2, ?_⟩
      have h2' : ¬ pyStr f ∉ V := by simpa using h2
      simp only [get_all_mcap, h1, Bool.not_true, Bool.false_eq_true, if_false,
        if_neg h2']
      split <;> rfl
    · left
      simp [get_all_mcap, h1, h2]
  · left
    have h1' : (isNum a && isStr f) = false := by simpa using h1
    simp [get_all_mcap, h1']

/-- C1: every lookup operation rejects a field string outside
`VALID_FIELDS` with its failure token, touching neither the store nor the
cache; consequently any SQL text a lookup ever hands to the executor is the
operation's fixed template with a whitelisted column identifier
interpolated. -/
theorem C1_whitelist_enforcement :
    (∀ (store : Store) (V : List String) (table : String) (a : PyVal) (s d : String)
       (c : Cache), isNum a = true → s ∉ V →
       get_daily_data store V table a (.strV s) (.strV d) c =
         ⟨.strV "#QUERY_ERROR",
          [⟨"get_daily_data", [a, .strV s, .strV d], "FAILURE", "Invalid field: " ++ s⟩],
          c, []⟩) ∧
    (∀ (store : Store) (V : List String) (table : String) (a : PyVal) (s : String)
       (d1 d2 : PyVal) (c : Cache), isNum a = true → s ∉ V →
       get_series store V table a (.strV s) d1 d2 c =
         ⟨[[.strV "#INVALID_FIELD"]], [], c, []⟩) ∧
    (∀ (store : Store) (V : List String) (table : String) (d s : String) (c : Cache),
       s ∉ V →
       get_daily_matrix store V table (.strV d) (.strV s) c =
         ⟨[[.strV "#INVALID_FIELD"]], [], c, []⟩) ∧
    (∀ (store : Store) (V : List String) (table : String) (a : PyVal) (s : String)
       (c : Cache), isNum a = true → s ∉ V →
       get_all_mcap store V table a (.strV s) c =
         ⟨[[.strV "#INVALID_FIELD"]], [], c, []⟩) ∧
    (∀ (store : Store) (V : List String) (table : String) (a f d : PyVal) (c : Cache),
       ∀ k ∈ (get_daily_data store V table a f d c).calls,
       ∃ fld ∈ V, k.1 = sql_daily_data fld table) ∧
    (∀ (store : Store) (V : List String) (table : String) (a f d1 d2 : PyVal)
       (c : Cache), ∀ k ∈ (get_series store V table a f d1 d2 c).calls,
       ∃ fld ∈ V, k.1 = sql_series fld table) ∧
    (∀ (store : Store) (V : List String) (table : String) (d f : PyVal) (c : Cache),
       ∀ k ∈ (get_daily_matrix store V table d f c).calls,
       ∃ fld ∈ V, k.1 = sql_daily_matrix fld table) ∧
    (∀ (store : Store) (V : List String) (table : String) (a f : PyVal) (c : Cache),
       ∀ k ∈ (get_all_mcap store V table a f c).calls,
       ∃ fld ∈ V, k.1 = sql_all_mcap fld table) := by
  refine ⟨?_, ?_, ?_, ?_, ?_, ?_, ?_, ?_⟩
  · intro store V table a s d c hnum hs
    have hc : (isNum a && isStr (.strV s) && isStr (.strV d)) = true := by
      simp [isStr, hnum]
    simp [get_daily_data, hc, hs, pyStr, log_udf_call,
      str_append_ne_empty "Invalid field: " s (by decide)]
  · intro store V table a s d1 d2 c hnum hs
    have hc : (isNum a && isStr (.strV s)) = true := by simp [isStr, hnum]
    simp [get_series, hc, hs, pyStr]
  · intro store V table d s c hs
    have hc : (isStr (.strV d) && isStr (.strV s)) = true := by simp [isStr]
    simp [get_daily_matrix, hc, hs, pyStr]
  · intro store V table a s c hnum hs
    have hc : (isNum a && isStr (.strV s)) = true := by simp [isStr, hnum]
    simp [get_all_mcap, hc, hs, pyStr]
  · intro store V table a f d c k hk
    rcases get_daily_data_calls store V table a f d c with h | ⟨hfV, hcalls⟩
    · rw [h] at hk
      simp at hk
    · rw [hcalls] at hk
      have hke := execQuery_calls_eq _ _ _ _ k hk
      exact ⟨pyStr f, hfV, by rw [hke]⟩
  · intro store V table a f d1 d2 c k hk
    rcases get_series_calls store V table a f d1 d2 c with h | ⟨hfV, hcalls⟩
    · rw [h] at hk
      simp at hk
    · rw [hcalls] at hk
      have hke := execQuery_calls_eq _ _ _ _ k hk
      exact ⟨pyStr f, hfV, by rw [hke]⟩
  · intro store V table d f c k hk
    rcases get_daily_matrix_calls store V table d f c with h | ⟨hfV, hcalls⟩
    · rw [h] at hk
      simp at hk
    · rw [hcalls] at hk
      have hke := execQuery_calls_eq _ _ _ _ k hk
      exact ⟨pyStr f, hfV, by rw [hke]⟩
  · intro store V table a f c k hk
    rcases get_all_mcap_calls store V table a f c with h | ⟨hfV, hcalls⟩
    · rw [h] at hk
      simp at hk
    · rw [hcalls] at hk
      have hke := execQuery_calls_eq _ _ _ _ k hk
      exact ⟨pyStr f, hfV, by rw [hke]⟩

/-- Witness for C1: the field `"revenue"` against the whitelist `["mcap"]`
is rejected by all four operations without any store call. -/
theorem C1_whitelist_enforcement_witness :
    (isNum (PyVal.intV 1) = true ∧ "revenue" ∉ ["mcap"]) ∧
    get_daily_data emptyStore ["mcap"] "mcap" (.intV 1) (.strV "revenue")
        (.strV "2024-01-02") [] =
      ⟨.strV "#QUERY_ERROR",
       [⟨"get_daily_data", [.intV 1, .strV "revenue", .strV "2024-01-02"],
         "FAILURE", "Invalid field: " ++ "revenue"⟩], [], []⟩ ∧
    get_series emptyStore ["mcap"] "mcap" (.intV 1) (.strV "revenue")
        (.strV "a") (.strV "b") [] = ⟨[[.strV "#INVALID_FIELD"]], [], [], []⟩ ∧
    get_daily_matrix emptyStore ["mcap"] "mcap" (.strV "2024-01-02")
        (.strV "revenue") [] = ⟨[[.strV "#INVALID_FIELD"]], [], [], []⟩ ∧
    get_all_mcap emptyStore ["mcap"] "mcap" (.intV 1) (.strV "revenue") [] =
      ⟨[[.strV "#INVALID_FIELD"]], [], [], []⟩ :=
  ⟨⟨rfl, by decide⟩,
   C1_whitelist_enforcement.1 emptyStore ["mcap"] "mcap" (.intV 1) "revenue"
     "2024-01-02" [] rfl (by decide),
   C1_whitelist_enforcement.2.1 emptyStore ["mcap"] "mcap" (.intV 1) "revenue"
     (.strV "a") (.strV "b") [] rfl (by decide),
   C1_whitelist_enforcement.2.2.1 emptyStore ["mcap"] "mcap" "2024-01-02"
     "revenue" [] (by decide),
   C1_whitelist_enforcement.2.2.2.1 emptyStore ["mcap"] "mcap" (.intV 1)
     "revenue" [] rfl (by decide)⟩

/-- C5 counterexample: `get_series` called with a non-numeric entity id is
rejected with `#INPUT_ERROR` and zero store calls, but writes NO log entry —
the rejection is silent, contradicting "logged ..., never silent". -/
theorem C5_counterexample :
    (get_series emptyStore ["mcap"] "mcap" (.strV "x") (.strV "mcap")
       (.strV "2024-01-01") (.strV "2024-01-31") []).logs = [] ∧
    (get_series emptyStore ["mcap"] "mcap" (.strV "x") (.strV "mcap")
       (.strV "2024-01-01") (.strV "2024-01-31") []).grid = [[.strV "#INPUT_ERROR"]] ∧
    (get_series emptyStore ["mcap"] "mcap" (.strV "x") (.strV "mcap")
       (.strV "2024-01-01") (.strV "2024-01-31") []).calls = [] :=
  ⟨rfl, rfl, rfl⟩

/-- C5 (amended): every operation rejects a type-invalid input with a
FAILURE outcome before any store access; `get_daily_data` logs the
rejection with a descriptive reason, while `get_series`, `get_daily_matrix`
and `get_all_mcap` return their sentinel grid silently, with no log entry. -/
theorem C5_type_validation_before_store :
    (∀ (store : Store) (V : List String) (table : String) (a f d : PyVal) (c : Cache),
       (isNum a && isStr f && isStr d) = false →
       get_daily_data store V table a f d c =
         ⟨.strV "#QUERY_ERROR",
          [⟨"get_daily_data", [a, f, d], "FAILURE", "Invalid input type."⟩], c, []⟩) ∧
    (∀ (store : Store) (V : List String) (table : String) (a f d1 d2 : PyVal)
       (c : Cache), (isNum a && isStr f) = false →
       get_series store V table a f d1 d2 c = ⟨[[.strV "#INPUT_ERROR"]], [], c, []⟩) ∧
    (∀ (store : Store) (V : List String) (table : String) (d f : PyVal) (c : Cache),
       (isStr d && isStr f) = false →
       get_daily_matrix store V table d f c = ⟨[[.strV "#INPUT_ERROR"]], [], c, []⟩) ∧
    (∀ (store : Store) (V : List String) (table : String) (a f : PyVal) (c : Cache),
       (isNum a && isStr f) = false →
       get_all_mcap store V table a f c = ⟨[[.strV "#INPUT_ERROR"]], [], c, []⟩) := by
  refine ⟨?_, ?_, ?_, ?_⟩
  · intro store V table a f d c h
    simp [get_daily_data, h, log_udf_call]
  · intro store V table a f d1 d2 c h
    simp [get_series, h]
  · intro store V table d f c h
    simp [get_daily_matrix, h]
  · intro store V table a f c h
    simp [get_all_mcap, h]

/-- Witness for the amended C5: concrete type-invalid calls to all four
operations. -/
theorem C5_type_validation_before_store_witness :
    get_daily_data emptyStore ["mcap"] "mcap" (.strV "x") (.strV "mcap")
        (.strV "d") [] =
      ⟨.strV "#QUERY_ERROR",
       [⟨"get_daily_data", [.strV "x", .strV "mcap", .strV "d"], "FAILURE",
         "Invalid input type."⟩], [], []⟩ ∧
    get_series emptyStore ["mcap"] "mcap" (.strV "x") (.strV "mcap") (.strV "a")
        (.strV "b") [] = ⟨[[.strV "#INPUT_ERROR"]], [], [], []⟩ ∧
    get_daily_matrix emptyStore ["mcap"] "mcap" (.intV 3) (.strV "mcap") [] =
      ⟨[[.strV "#INPUT_ERROR"]], [], [], []⟩ ∧
    get_all_mcap emptyStore ["mcap"] "mcap" (.noneV) (.strV "mcap") [] =
      ⟨[[.strV "#INPUT_ERROR"]], [], [], []⟩ :=
  ⟨C5_type_validation_before_store.1 emptyStore ["mcap"] "mcap" (.strV "x")
     (.strV "mcap") (.strV "d") [] rfl,
   C5_type_validation_before_store.2.1 emptyStore ["mcap"] "mcap" (.strV "x")
     (.strV "mcap") (.strV "a") (.strV "b") [] rfl,
   C5_type_validation_before_store.2.2.1 emptyStore ["mcap"] "mcap" (.intV 3)
     (.strV "mcap") [] rfl,
   C5_type_validation_before_store.2.2.2 emptyStore ["mcap"] "mcap" (.noneV)
     (.strV "mcap") [] rfl⟩

/-- C8 counterexample: on a store with no matching rows, `get_series`
returns the single sentinel row `[["#N/A_DATA", ""]]` — one row, with no
header row preceding it, contradicting "header row followed by a sentinel
row". -/
theorem C8_counterexample :
    (get_series emptyStore ["mcap"] "mcap" (.intV 1) (.strV "mcap")
       (.strV "2024-01-01") (.strV "2024-01-31") []).grid
      = [[.strV "#N/A_DATA", .strV ""]] ∧
    (get_series emptyStore ["mcap"] "mcap" (.intV 1) (.strV "mcap")
       (.strV "2024-01-01") (.strV "2024-01-31") []).grid.length = 1 :=
  ⟨rfl, rfl⟩

/-- C8 (amended): when `get_series`, `get_daily_matrix` or `get_all_mcap`
finds no matching rows, the returned grid is a single sentinel row (shaped
to the operation's column count), with no header row. -/
theorem C8_not_found_sentinel_row :
    (∀ (store : Store) (V : List String) (table : String) (a : PyVal) (s : String)
       (d1 d2 : PyVal) (c : Cache), isNum a = true → s ∈ V →
       (execQuery store c (sql_series s table) [.intV (pyToInt a), d1, d2]).res
         = .ok [] →
       (get_series store V table a (.strV s) d1 d2 c).grid
         = [[.strV "#N/A_DATA", .strV ""]]) ∧
    (∀ (store : Store) (V : List String) (table : String) (d s : String) (c : Cache),
       s ∈ V →
       (execQuery store c (sql_daily_matrix s table) [.strV d]).res = .ok [] →
       (get_daily_matrix store V table (.strV d) (.strV s) c).grid
         = [[.strV "#N/A_DATA", .strV "", .strV "", .strV "", .strV ""]]) ∧
    (∀ (store : Store) (V : List String) (table : String) (a : PyVal) (s : String)
       (c : Cache), isNum a = true → s ∈ V →
       (execQuery store c (sql_all_mcap s table) [.intV (pyToInt a)]).res = .ok [] →
       (get_all_mcap store V table a (.strV s) c).grid
         = [[.strV "#N/A_DATA", .strV ""]]) := by
  refine ⟨?_, ?_, ?_⟩
  · intro store V table a s d1 d2 c hnum hsV hres
    have hc : (isNum a && isStr (.strV s)) = true := by simp [isStr, hnum]
    have h2' : ¬ pyStr (.strV s) ∉ V := by simpa [pyStr] using hsV
    simp only [get_series, hc, Bool.not_true, Bool.false_eq_true, if_false,
      if_neg h2', pyStr]
    rw [hres]
    simp [hsV]
  · intro store V table d s c hsV hres
    have hc : (isStr (.strV d) && isStr (.strV s)) = true := by simp [isStr]
    have h2' : ¬ pyStr (.strV s) ∉ V := by simpa [pyStr] using hsV
    simp only [get_daily_matrix, hc, Bool.not_true, Bool.false_eq_true, if_false,
      if_neg h2', pyStr]
    rw [hres]
    simp [hsV]
  · intro store V table a s c hnum hsV hres
    have hc : (isNum a && isStr (.strV s)) = true := by simp [isStr, hnum]
    have h2' : ¬ pyStr (.strV s) ∉ V := by simpa [pyStr] using hsV
    simp only [get_all_mcap, hc, Bool.not_true, Bool.false_eq_true, if_false,
      if_neg h2', pyStr]
    rw [hres]
    simp [hsV]

/-- Witness for the amended C8: an empty store makes all three grid
operations return their single sentinel row. -/
theorem C8_not_found_sentinel_row_witness :
    (get_series emptyStore ["mcap"] "mcap" (.intV 9) (.strV "mcap") (.strV "a")
       (.strV "b") []).grid = [[.strV "#N/A_DATA", .strV ""]] ∧
    (get_daily_matrix emptyStore ["mcap"] "mcap" (.strV "2024-01-02")
       (.strV "mcap") []).grid
      = [[.strV "#N/A_DATA", .strV "", .strV "", .strV "", .strV ""]] ∧
    (get_all_mcap emptyStore ["mcap"] "mcap" (.intV 9) (.strV "mcap") []).grid
      = [[.strV "#N/A_DATA", .strV ""]] :=
  ⟨C8_not_found_sentinel_row.1 emptyStore ["mcap"] "mcap" (.intV 9) "mcap"
     (.strV "a") (.strV "b") [] rfl (by decide) rfl,
   C8_not_found_sentinel_row.2.1 emptyStore ["mcap"] "mcap" "2024-01-02" "mcap"
     [] (by decide) rfl,
   C8_not_found_sentinel_row.2.2 emptyStore ["mcap"] "mcap" (.intV 9) "mcap"
     [] rfl (by decide) rfl⟩

/-- Any error outcome of the executor carries a nonempty message (the
`"Database error: "` prefix of the re-raised `RuntimeError`). -/
theorem execQuery_error_ne_empty (store : Store) (c : Cache) (sql : String)
    (ps : List PyVal) (e : String)
    (h : (execQuery store c sql ps).res = .error e) : e ≠ "" := by
  cases hf : cacheFind c (sql, ps) with
  | some r =>
    rw [execQuery_hit store c sql ps r hf] at h
    simp at h
  | none =>
    cases hs : store sql ps with
    | ok r =>
      rw [execQuery_miss_ok store c sql ps r hf hs] at h
      simp at h
    | error e0 =>
      rw [execQuery_miss_error store c sql ps e0 hf hs] at h
      simp only [Except.error.injEq] at h
      rw [← h]
      exact str_append_ne_empty _ _ (by decide)

/-- On a nonempty error message the logger returns the `#QUERY_ERROR` tag. -/
theorem log_udf_call_fst (f : String) (p : List PyVal) (st msg : String)
    (h : msg ≠ "") : (log_udf_call f p st msg).1 = .strV "#QUERY_ERROR" := by
  simp [log_udf_call, h]

/-- C9: whenever the point-lookup query yields at least one row, the
returned scalar is the first column of the first row; any further rows (and
further columns) are discarded and the call is logged as SUCCESS. -/
theorem C9_point_lookup_first_cell (store : Store) (V : List String)
    (table : String) (a : PyVal) (s d : String) (c : Cache) (v0 : PyVal)
    (restRow : List PyVal) (restRows : Rows)
    (hnum : isNum a = true) (hsV : s ∈ V)
    (hres : (execQuery store c (sql_daily_data s table)
        [.intV (pyToInt a), .strV d]).res = .ok ((v0 :: restRow) :: restRows)) :
    (get_daily_data store V table a (.strV s) (.strV d) c).value = v0 ∧
    (get_daily_data store V table a (.strV s) (.strV d) c).logs
      = [⟨"get_daily_data", [a, .strV s, .strV d], "SUCCESS", ""⟩] := by
  have hc : (isNum a && isStr (.strV s) && isStr (.strV d)) = true := by
    simp [isStr, hnum]
  have h2' : ¬ pyStr (.strV s) ∉ V := by simpa [pyStr] using hsV
  simp only [get_daily_data, hc, Bool.not_true, Bool.false_eq_true, if_false,
    if_neg h2', pyStr]
  rw [hres]
  simp [hsV, log_udf_call]

/-- Witness for C9: a store answering with two rows; the scalar is the
first cell of the first row and the extra row is discarded. -/
theorem C9_point_lookup_first_cell_witness :
    (get_daily_data (constStore [[.intV 42, .strV "x"], [.intV 99]]) ["mcap"]
       "mcap" (.intV 7) (.strV "mcap") (.strV "2024-01-02") []).value = .intV 42 ∧
    (get_daily_data (constStore [[.intV 42, .strV "x"], [.intV 99]]) ["mcap"]
       "mcap" (.intV 7) (.strV "mcap") (.strV "2024-01-02") []).logs
      = [⟨"get_daily_data", [.intV 7, .strV "mcap", .strV "2024-01-02"],
          "SUCCESS", ""⟩] :=
  C9_point_lookup_first_cell (constStore [[.intV 42, .strV "x"], [.intV 99]])
    ["mcap"] "mcap" (.intV 7) "mcap" "2024-01-02" [] (.intV 42) [.strV "x"]
    [[.intV 99]] rfl (by decide) rfl

theorem sentinelCount_query_error :
    sentinelCount [[PyVal.strV "#QUERY_ERROR"]] = 1 := by decide

theorem sentinelCount_input_error :
    sentinelCount [[PyVal.strV "#INPUT_ERROR"]] = 1 := by decide

theorem sentinelCount_invalid_field :
    sentinelCount [[PyVal.strV "#INVALID_FIELD"]] = 1 := by decide

theorem sentinelCount_na_two :
    sentinelCount [[PyVal.strV "#N/A_DATA", PyVal.strV ""]] = 1 := by decide

theorem sentinelCount_na_five :
    sentinelCount [[PyVal.strV "#N/A_DATA", PyVal.strV "", PyVal.strV "",
      PyVal.strV "", PyVal.strV ""]] = 1 := by decide

/-- C3: no call raises to the host — each operation is a total function —
and every call that does not log SUCCESS returns a value embedding exactly
one of the four sentinel tokens: the scalar lookup returns the
`#QUERY_ERROR` token itself, and each grid operation returns a grid with
exactly one sentinel cell. -/
theorem C3_failure_sentinels :
    (∀ (store : Store) (V : List String) (table : String) (a f d : PyVal)
       (c : Cache),
       (∃ e ∈ (get_daily_data store V table a f d c).logs, e.status = "SUCCESS") ∨
       ((get_daily_data store V table a f d c).value = .strV "#QUERY_ERROR" ∧
        "#QUERY_ERROR" ∈ SENTINELS)) ∧
    (∀ (store : Store) (V : List String) (table : String) (a f d1 d2 : PyVal)
       (c : Cache),
       (∃ e ∈ (get_series store V table a f d1 d2 c).logs, e.status = "SUCCESS") ∨
       sentinelCount (get_series store V table a f d1 d2 c).grid = 1) ∧
    (∀ (store : Store) (V : List String) (table : String) (d f : PyVal)
       (c : Cache),
       (∃ e ∈ (get_daily_matrix store V table d f c).logs, e.status = "SUCCESS") ∨
       sentinelCount (get_daily_matrix store V table d f c).grid = 1) ∧
    (∀ (store : Store) (V : List String) (table : String) (a f : PyVal)
       (c : Cache),
       (∃ e ∈ (get_all_mcap store V table a f c).logs, e.status = "SUCCESS") ∨
       sentinelCount (get_all_mcap store V table a f c).grid = 1) := by
  refine ⟨?_, ?_, ?_, ?_⟩
  · intro store V table a f d c
    by_cases h1 : (isNum a && isStr f && isStr d) = true
    · by_cases h2 : pyStr f ∈ V
      · have h2' : ¬ pyStr f ∉ V := by simpa using h2
        rcases hres : (execQuery store c (sql_daily_data (pyStr f) table)
            [.intV (pyToInt a), d]).res with e | rows
        · right
          have hne := execQuery_error_ne_empty _ _ _ _ _ hres
          simp only [get_daily_data, h1, Bool.not_true, Bool.false_eq_true,
            if_false, if_neg h2', hres]
          simp [log_udf_call_fst _ _ _ _ hne, SENTINELS]
        · rcases rows with _ | ⟨r0, rest⟩
          · right
            simp only [get_daily_data, h1, Bool.not_true, Bool.false_eq_true,
              if_false, if_neg h2', hres]
            simp [log_udf_call, SENTINELS]
          · rcases r0 with _ | ⟨v0, r0rest⟩
            · right
              simp only [get_daily_data, h1, Bool.not_true, Bool.false_eq_true,
                if_false, if_neg h2', hres]
              simp [log_udf_call, SENTINELS]
            · left
              simp only [get_daily_data, h1, Bool.not_true, Bool.false_eq_true,
                if_false, if_neg h2', hres]
              simp [log_udf_call]
      · right
        simp [get_daily_data, h1, h2, log_udf_call, SENTINELS,
          str_append_ne_empty "Invalid field: " (pyStr f) (by decide)]
    · right
      have h1' : (isNum a && isStr f && isStr d) = false := by simpa using h1
      simp [get_daily_data, h1', log_udf_call, SENTINELS]
  · intro store V table a f d1 d2 c
    by_cases h1 : (isNum a && isStr f) = true
    · by_cases h2 : pyStr f ∈ V
      · have h2' : ¬ pyStr f ∉ V := by simpa using h2
        rcases hres : (execQuery store c (sql_series (pyStr f) table)
            [.intV (pyToInt a), d1, d2]).res with e | rows
        · right
          have hne := execQuery_error_ne_empty _ _ _ _ _ hres
          simp only [get_series, h1, Bool.not_true, Bool.false_eq_true,
            if_false, if_neg h2', hres]
          rw [log_udf_call_fst _ _ _ _ hne]
          exact sentinelCount_query_error
        · rcases rows with _ | ⟨r0, rest⟩
          · right
            simp only [get_series, h1, Bool.not_true, Bool.false_eq_true,
              if_false, if_neg h2', hres]
            exact sentinelCount_na_two
          · left
            simp only [get_series, h1, Bool.not_true, Bool.false_eq_true,
              if_false, if_neg h2', hres]
            simp [log_udf_call]
      · right
        simp only [get_series, h1, Bool.not_true, Bool.false_eq_true,
          if_false, if_pos h2]
        exact sentinelCount_invalid_field
    · right
      have h1' : (isNum a && isStr f) = false := by simpa using h1
      simp only [get_series, h1', Bool.not_false, if_true]
      exact sentinelCount_input_error
  · intro store V table d f c
    by_cases h1 : (isStr d && isStr f) = true
    · by_cases h2 : pyStr f ∈ V
      · have h2' : ¬ pyStr f ∉ V := by simpa using h2
        rcases hres : (execQuery store c (sql_daily_matrix (pyStr f) table)
            [d]).res with e | rows
        · right
          have hne := execQuery_error_ne_empty _ _ _ _ _ hres
          simp only [get_daily_matrix, h1, Bool.not_true, Bool.false_eq_true,
            if_false, if_neg h2', hres]
          rw [log_udf_call_fst _ _ _ _ hne]
          exact sentinelCount_query_error
        · rcases rows with _ | ⟨r0, rest⟩
          · right
            simp only [get_daily_matrix, h1, Bool.not_true, Bool.false_eq_true,
              if_false, if_neg h2', hres]
            exact sentinelCount_na_five
          · left
            simp only [get_daily_matrix, h1, Bool.not_true, Bool.false_eq_true,
              if_false, if_neg h2', hres]
            simp [log_udf_call]
      · right
        simp only [get_daily_matrix, h1, Bool.not_true, Bool.false_eq_true,
          if_false, if_pos h2]
        exact sentinelCount_invalid_field
    · right
      have h1' : (isStr d && isStr f) = false := by simpa using h1
      simp only [get_daily_matrix, h1', Bool.not_false, if_true]
      exact sentinelCount_input_error
  · intro store V table a f c
    by_cases h1 : (isNum a && isStr f) = true
    · by_cases h2 : pyStr f ∈ V
      · have h2' : ¬ pyStr f ∉ V := by simpa using h2
        rcases hres : (execQuery store c (sql_all_mcap (pyStr f) table)
            [.intV (pyToInt a)]).res with e | rows
        · right
          have hne := execQuery_error_ne_empty _ _ _ _ _ hres
          simp only [get_all_mcap, h1, Bool.not_true, Bool.false_eq_true,
            if_false, if_neg h2', hres]
          rw [log_udf_call_fst _ _ _ _ hne]
          exact sentinelCount_query_error
        · rcases rows with _ | ⟨r0, rest⟩
          · right
            simp only [get_all_mcap, h1, Bool.not_true, Bool.false_eq_true,
              if_false, if_neg h2', hres]
            exact sentinelCount_na_two
          · left
            simp only [get_all_mcap, h1, Bool.not_true, Bool.false_eq_true,
              if_false, if_neg h2', hres]
            simp [log_udf_call]
      · right
        simp only [get_all_mcap, h1, Bool.not_true, Bool.false_eq_true,
          if_false, if_pos h2]
        exact sentinelCount_invalid_field
    · right
      have h1' : (isNum a && isStr f) = false := by simpa using h1
      simp only [get_all_mcap, h1', Bool.not_false, if_true]
      exact sentinelCount_input_error

/-- With valid types and a whitelisted field, the point lookup's resulting
cache is exactly the executor's resulting cache. -/
theorem get_daily_data_cache_main (store : Store) (V : List String)
    (table : String) (a : PyVal) (s d : String) (c : Cache)
    (hnum : isNum a = true) (hsV : s ∈ V) :
    (get_daily_data store V table a (.strV s) (.strV d) c).cache
      = (execQuery store c (sql_daily_data s table)
          [.intV (pyToInt a), .strV d]).cache := by
  have hc : (isNum a && isStr (.strV s) && isStr (.strV d)) = true := by
    simp [isStr, hnum]
  have h2' : ¬ pyStr (.strV s) ∉ V := by simpa [pyStr] using hsV
  simp only [get_daily_data, hc, Bool.not_true, Bool.false_eq_true, if_false,
    if_neg h2']
  split <;> rfl

/-- C10: the entity-id argument of `get_daily_data`, `get_series` and
`get_all_mcap` may be any int or float; it is bound as `int(accord_code)`,
i.e. truncation toward zero (floor for nonnegative floats, ceiling for
negative ones), so the fractional id 1001.9 binds entity 1001; ids 1001 and
1001.0 truncate identically, hence produce the same bound parameters, and a
second lookup with the equal-truncation id is served from the first
lookup's cache entry with zero store round trips. -/
theorem C10_entity_id_truncation :
    (∀ q : ℚ, pyToInt (.floatV q) = if 0 ≤ q then ⌊q⌋ else ⌈q⌉) ∧
    pyToInt (.floatV (10019 / 10)) = 1001 ∧
    pyToInt (.intV 1001) = pyToInt (.floatV 1001) ∧
    (∀ (store : Store) (V : List String) (table : String) (a f d : PyVal)
       (c : Cache), ∀ k ∈ (get_daily_data store V table a f d c).calls,
       k.2 = [.intV (pyToInt a), d]) ∧
    (∀ (store : Store) (V : List String) (table : String) (a f d1 d2 : PyVal)
       (c : Cache), ∀ k ∈ (get_series store V table a f d1 d2 c).calls,
       k.2 = [.intV (pyToInt a), d1, d2]) ∧
    (∀ (store : Store) (V : List String) (table : String) (a f : PyVal)
       (c : Cache), ∀ k ∈ (get_all_mcap store V table a f c).calls,
       k.2 = [.intV (pyToInt a)]) ∧
    (∀ (store store2 : Store) (V : List String) (table : String) (a1 a2 : PyVal)
       (s d : String) (c : Cache) (rows : Rows),
       isNum a1 = true → isNum a2 = true → pyToInt a1 = pyToInt a2 → s ∈ V →
       (execQuery store c (sql_daily_data s table)
          [.intV (pyToInt a1), .strV d]).res = .ok rows →
       (get_daily_data store2 V table a2 (.strV s) (.strV d)
          (get_daily_data store V table a1 (.strV s) (.strV d) c).cache).calls
         = []) := by
  refine ⟨pyToInt_floatV, ?_, ?_, ?_, ?_, ?_, ?_⟩
  · rw [pyToInt_floatV, if_pos (by norm_num)]
    norm_num
  · rw [pyToInt_floatV, if_pos (by norm_num)]
    norm_num [pyToInt]
  · intro store V table a f d c k hk
    rcases get_daily_data_calls store V table a f d c with h | ⟨_, hc2⟩
    · rw [h] at hk
      simp at hk
    · rw [hc2] at hk
      have hke := execQuery_calls_eq _ _ _ _ k hk
      rw [hke]
  · intro store V table a f d1 d2 c k hk
    rcases get_series_calls store V table a f d1 d2 c with h | ⟨_, hc2⟩
    · rw [h] at hk
      simp at hk
    · rw [hc2] at hk
      have hke := execQuery_calls_eq _ _ _ _ k hk
      rw [hke]
  · intro store V table a f c k hk
    rcases get_all_mcap_calls store V table a f c with h | ⟨_, hc2⟩
    · rw [h] at hk
      simp at hk
    · rw [hc2] at hk
      have hke := execQuery_calls_eq _ _ _ _ k hk
      rw [hke]
  · intro store store2 V table a1 a2 s d c rows hnum1 hnum2 hpy hsV hres
    have hcache := get_daily_data_cache_main store V table a1 s d c hnum1 hsV
    have hfind := execQuery_ok_cached store c (sql_daily_data s table)
      [.intV (pyToInt a1), .strV d] rows hres
    rcases get_daily_data_calls store2 V table a2 (.strV s) (.strV d)
        ((get_daily_data store V table a1 (.strV s) (.strV d) c).cache)
      with h | ⟨_, hc2⟩
    · exact h
    · rw [hc2]
      simp only [pyStr]
      rw [hcache, ← hpy]
      rw [execQuery_hit store2 _ _ _ rows hfind]

/-- Witness for C10: the fractional id `10019/10` binds entity 1001, and a
lookup with float id `1001.0` after one with int id `1001` is a pure cache
hit. -/
theorem C10_entity_id_truncation_witness :
    ((sql_daily_data "mcap" "mcap",
        [PyVal.intV 1001, PyVal.strV "d"]) : QueryKey).2
      = [PyVal.intV (pyToInt (PyVal.floatV (Rat.divInt 10019 10))), PyVal.strV "d"] ∧
    (get_daily_data emptyStore ["mcap"] "mcap" (.floatV (Rat.divInt 1001 1))
       (.strV "mcap") (.strV "2024-01-02")
       (get_daily_data (constStore [[.intV 5]]) ["mcap"] "mcap" (.intV 1001)
          (.strV "mcap") (.strV "2024-01-02") []).cache).calls = [] :=
  ⟨C10_entity_id_truncation.2.2.2.1 (constStore [[.intV 5]]) ["mcap"] "mcap"
     (.floatV (Rat.divInt 10019 10)) (.strV "mcap") (.strV "d") []
     (sql_daily_data "mcap" "mcap", [PyVal.intV 1001, PyVal.strV "d"]) (by decide),
   C10_entity_id_truncation.2.2.2.2.2.2 (constStore [[.intV 5]]) emptyStore
     ["mcap"] "mcap" (.intV 1001) (.floatV (Rat.divInt 1001 1)) "mcap"
     "2024-01-02" [] [[.intV 5]] rfl rfl (by decide) (by decide) rfl⟩

end DailyDataUdf
